import Mathlib

/-!
Shallow embedding of the realtime chat / file-deposit core of the
Math-learning application (server.js, routes/classRoutes.js,
models/Classroom.js), together with theorems settling the frozen claims
about its specification.

Conventions of the embedding:
* machine time (`Date.now()` / `new Date()`) is a `Nat` parameter `now`;
* MongoDB persistence is a list of `Classroom` documents; `classroom.save()`
  succeeds iff the store is reachable (`storeUp`) and the document passes
  the mongoose schema validators embedded in `validClassroom`;
* external collaborators (socket.io room fan-out, the multer middleware,
  the Cloudinary uploader) are modelled by their interface contracts: the
  fan-out delivers to exactly the sockets joined to the room, multer either
  hands the route a file or surfaces a rejection, and an upload either
  returns a reply or fails;
* each handler returns, besides the updated store, an ordered list of
  effects; the list order is the temporal order in which the handler
  performs the effects.
-/

namespace MathLearning

/-! ### Character/string helpers (JavaScript string primitives) -/

/-- List-level prefix test (`p` is a prefix of the second argument). -/
def startsWithCL : List Char → List Char → Bool
  | [], _ => true
  | _ :: _, [] => false
  | p :: ps, c :: cs => p == c && startsWithCL ps cs

/-- List-level substring test: does the pattern occur somewhere? -/
def containsCL (pat : List Char) : List Char → Bool
  | [] => startsWithCL pat []
  | c :: cs => startsWithCL pat (c :: cs) || containsCL pat cs

/-- JavaScript `String.prototype.includes` / an un-anchored regex
alternative test: `pat` occurs as a substring of `s`. -/
def strContains (s pat : String) : Bool := containsCL pat.data s.data

/-- JavaScript `String.prototype.startsWith`. -/
def startsWithStr (s pre : String) : Bool := startsWithCL pre.data s.data

/-- JavaScript `String.prototype.endsWith`. -/
def strEndsWith (s suffix : String) : Bool :=
  startsWithCL suffix.data.reverse s.data.reverse

/-- JavaScript `String.prototype.toLowerCase` (ASCII, as `Char.toLower`). -/
def lowerStr (s : String) : String := ⟨s.data.map Char.toLower⟩

/-- Node `path.extname`: the suffix of the name from its last dot, empty
when there is no dot or when the only dot is the leading character of the
name (a dotfile has no extension). -/
def afterLastDot : List Char → Option (List Char)
  | [] => none
  | c :: cs =>
    match afterLastDot cs with
    | some e => some e
    | none => if c == '.' then some cs else none

def extname (name : String) : String :=
  match name.data with
  | [] => ""
  | _ :: rest =>
    match afterLastDot rest with
    | some e => ⟨'.' :: e⟩
    | none => ""

/-- Node `path.parse(name).name`: the base name without its extension. -/
def parseName (name : String) : String :=
  ⟨name.data.take (name.data.length - (extname name).data.length)⟩

/-- JavaScript truthiness of an optional string (`undefined` and `""` are
falsy). -/
def jsStr (s : Option String) : Bool :=
  match s with
  | none => false
  | some t => t != ""

/-- JavaScript `a || d` for an optional string `a` (empty string falls back
to the default, as in `type || 'text'`). -/
def jsOr (s : Option String) (d : String) : String :=
  match s with
  | none => d
  | some t => if t == "" then d else t

/-! ### Data model: models/Classroom.js -/

/-- A chat message subdocument, with exactly the paths of `messageSchema`
in models/Classroom.js: `sender` (required), `content` (required: false),
`type` (enum text/math/image, required, default text), `imageUrl`
(required: false), `timestamp`. -/
structure Message where
  sender : String
  content : Option String
  type : String
  imageUrl : Option String
  timestamp : Nat
deriving DecidableEq

/-- The `enum` of `messageSchema.type` in models/Classroom.js. -/
def messageTypeEnum : List String := ["text", "math", "image"]

/-- Mongoose validation of one message subdocument: `sender` is required
(a missing/empty value fails) and `type` must lie in the enum. -/
def validMessage (m : Message) : Bool :=
  m.sender != "" && messageTypeEnum.contains m.type

/-- A deposited-file subdocument with the paths of `fileSchema` in
models/Classroom.js. -/
structure FileEntry where
  fileName : String
  filePath : String
  fileSize : Nat
  fileMimeType : String
  uploadDate : Nat
  uploader : String
  category : String
  publicId : String
deriving DecidableEq

/-- The `enum` of `fileSchema.category` (also `allowedCategories` in
routes/classRoutes.js). -/
def categoryEnum : List String := ["exercise", "homework", "correction", "general"]

/-- Mongoose validation of one file subdocument: the required string paths
must be present and non-empty and `category` must lie in the enum. -/
def validFileEntry (f : FileEntry) : Bool :=
  f.fileName != "" && (f.filePath != "" && (f.fileMimeType != "" &&
    (f.uploader != "" && categoryEnum.contains f.category)))

/-- A classroom document: identity plus its embedded message and file
sequences (roster fields are irrelevant to the claims and omitted). -/
structure Classroom where
  id : String
  messages : List Message
  files : List FileEntry
deriving DecidableEq

/-- Mongoose validation of a classroom document on `save()`: every
embedded subdocument must validate. -/
def validClassroom (c : Classroom) : Bool :=
  c.messages.all validMessage && c.files.all validFileEntry

/-- `Classroom.findById`. -/
def findById (store : List Classroom) (cid : String) : Option Classroom :=
  store.find? (fun c => c.id == cid)

/-- `classroom.save()` on a loaded document: the stored document with the
same id is replaced by the mutated one. -/
def saveClassroom (store : List Classroom) (c : Classroom) : List Classroom :=
  store.map (fun c0 => if c0.id == c.id then c else c0)

/-- `classroom.messages.push(newMessage)`. -/
def appendMsg (c : Classroom) (m : Message) : Classroom :=
  { c with messages := c.messages ++ [m] }

/-! ### The chatMessage pipeline (server.js:371-412) -/

/-- The payload of a client `chatMessage` event
(`{ classroomId, content, type, fileUrl }`). -/
structure ChatMsgInput where
  classroomId : String
  content : Option String
  type : Option String
  fileUrl : Option String
deriving DecidableEq

/-- The server→client `message` event emitted at server.js:400-407. -/
structure MessageEvent where
  senderId : String
  senderUsername : String
  content : Option String
  type : String
  fileUrl : Option String
  timestamp : Nat
deriving DecidableEq

/-- An effect of the chatMessage handler, in the order performed:
a persistence write (`classroom.save()`, with its success bit) or a
room-scoped broadcast (`io.to(room).emit('message', ev)`). -/
inductive ChatEffect where
  | save (classroomId : String) (m : Message) (ok : Bool)
  | emitToRoom (room : String) (ev : MessageEvent)
deriving DecidableEq

/-- The subdocument pushed by the handler (server.js:389-395), as cast by
the strict `messageSchema`: `sender`, `content`, `type || 'text'` and
`timestamp` are schema paths and kept; the handler's `fileUrl` field has
no schema path and is discarded by strict mode, and `imageUrl` is never
set by this handler. -/
def newMessageDoc (senderId : String) (content : Option String)
    (type? : Option String) (now : Nat) : Message :=
  { sender := senderId, content := content, type := jsOr type? "text",
    imageUrl := none, timestamp := now }

/-- The `message` event object emitted at server.js:400-407. -/
def mkEvent (sid sun : String) (inp : ChatMsgInput) (now : Nat) : MessageEvent :=
  { senderId := sid, senderUsername := sun, content := inp.content,
    type := jsOr inp.type "text", fileUrl := inp.fileUrl, timestamp := now }

/-- The `socket.on('chatMessage')` handler, server.js:371-412. Returns the
store after the handler and the ordered effects it performed. The guard
mirrors `if (!senderId || !senderUsername) return;`; a missing classroom
is logged and dropped; `classroom.save()` fails (throwing into the catch
block, which emits nothing) when the store is down or schema validation
rejects the document. -/
def chatMessageHandler (store : List Classroom) (storeUp : Bool)
    (senderId senderUsername : String) (inp : ChatMsgInput) (now : Nat) :
    List Classroom × List ChatEffect :=
  if senderId == "" || senderUsername == "" then (store, [])
  else
    match findById store inp.classroomId with
    | none => (store, [])
    | some c =>
      if storeUp && validClassroom (appendMsg c (newMessageDoc senderId inp.content inp.type now)) then
        (saveClassroom store (appendMsg c (newMessageDoc senderId inp.content inp.type now)),
         [ChatEffect.save inp.classroomId (newMessageDoc senderId inp.content inp.type now) true,
          ChatEffect.emitToRoom inp.classroomId (mkEvent senderId senderUsername inp now)])
      else
        (store, [ChatEffect.save inp.classroomId (newMessageDoc senderId inp.content inp.type now) false])

/-! ### Room membership and fan-out (socket.io contract, spec section 4.2) -/

/-- Room membership: the set of (socket, room) pairs currently joined. -/
def joinedRoom (rooms : List (String × String)) (sockId room : String) : Bool :=
  rooms.contains (sockId, room)

/-- `socket.join(classroomId)` (idempotent set insertion). -/
def socketJoin (rooms : List (String × String)) (sockId room : String) :
    List (String × String) :=
  if joinedRoom rooms sockId room then rooms else rooms ++ [(sockId, room)]

/-- The fan-out contract of `io.to(room).emit`: the events socket `sockId`
receives from one broadcast — the event iff it is joined to the room,
nothing otherwise. -/
def deliverTo (rooms : List (String × String)) (room : String)
    (ev : MessageEvent) (sockId : String) : List MessageEvent :=
  if joinedRoom rooms sockId room then [ev] else []

/-! ### Connection gate (server.js:351-417) -/

/-- The Session Identity resolved by the session middleware
(`socket.request.session.user`). -/
structure Identity where
  userId : String
  username : String
  role : String
deriving DecidableEq

/-- A client realtime event on one connection. -/
inductive ClientEvent where
  | joinRoomEv (classroomId : String)
  | chatMessageEv (inp : ChatMsgInput)
deriving DecidableEq

/-- The mutable server state touched by the realtime layer. -/
structure ServerState where
  store : List Classroom
  rooms : List (String × String)
deriving DecidableEq

/-- Dispatch of one client event on an authenticated connection
(the `socket.on('joinRoom')` and `socket.on('chatMessage')` handlers). -/
def handleEvent (sockId : String) (ident : Identity) (storeUp : Bool) (now : Nat)
    (st : ServerState) (ev : ClientEvent) : ServerState × List ChatEffect :=
  match ev with
  | ClientEvent.joinRoomEv cid =>
      ({ st with rooms := socketJoin st.rooms sockId cid }, [])
  | ClientEvent.chatMessageEv inp =>
      ({ st with store := (chatMessageHandler st.store storeUp ident.userId ident.username inp now).1 },
       (chatMessageHandler st.store storeUp ident.userId ident.username inp now).2)

/-- The `io.on('connection')` handler, server.js:351-417: when the session
resolves no user the socket is disconnected at once
(`return socket.disconnect(true)`, server.js:356-359) and, because that
`return` precedes every `socket.on(...)` registration, no later client
event is processed. Otherwise events are dispatched in order. Returns
(disconnected-immediately, final state, ordered effects). -/
def handleConnection (sess : Option Identity) (sockId : String) (storeUp : Bool)
    (now : Nat) (st : ServerState) (evs : List ClientEvent) :
    Bool × ServerState × List ChatEffect :=
  match sess with
  | none => (true, st, [])
  | some ident =>
      (false,
       evs.foldl (fun acc ev =>
         ((handleEvent sockId ident storeUp now acc.1 ev).1,
          acc.2 ++ (handleEvent sockId ident storeUp now acc.1 ev).2)) (st, []))

/-! ### Multer middleware (server.js:67-85, routes/classRoutes.js:16-29) -/

/-- The uploaded-file metadata multer hands the route (`req.file` minus the
buffer, which the claims never inspect). -/
structure UFile where
  originalname : String
  mimetype : String
  size : Nat
deriving DecidableEq

/-- The alternatives of the un-anchored regex
`/jpeg|jpg|png|gif|pdf|doc|docx/` of the multer `fileFilter`. -/
def allowedTokens : List String := ["jpeg", "jpg", "png", "gif", "pdf", "doc", "docx"]

/-- `allowedMimeTypes.test(s)`: the un-anchored regex matches iff some
alternative occurs as a substring. -/
def mimeRegexTest (s : String) : Bool := allowedTokens.any (fun t => strContains s t)

/-- The multer `fileFilter` of server.js:70-84: the file must carry an
`originalname` (server.js:71-74) and the regex must match both the declared
MIME type and the lowercased extension of the original name. -/
def fileFilterOk (f : UFile) : Bool :=
  f.originalname != "" &&
    (mimeRegexTest f.mimetype && mimeRegexTest (lowerStr (extname f.originalname)))

/-- `limits: { fileSize: 10 * 1024 * 1024 }` (server.js:69). -/
def maxFileSize : Nat := 10 * 1024 * 1024

/-- A multer rejection: the `fileFilter` error (server.js:83) or the
`LIMIT_FILE_SIZE` error raised when the payload exceeds the size limit. -/
inductive MulterError where
  | filterRejected (msg : String)
  | limitFileSize
deriving DecidableEq

/-- The multer middleware contract: given the incoming multipart file (if
any), either hand the route the accepted file (`req.file`), or reject (the
`fileFilter` runs on the file metadata before the streamed size limit can
trip). A rejection is passed to `next(err)`: the route handler is skipped
and Express error handling responds — multer never sets `req.multerError`
or `req.fileFilterError`. The returned pair records `req.file` and the
error passed to `next`, and the route compositions below dispatch on the
error first. The classRoutes multer instance
(routes/classRoutes.js:16-29) is identical except that its fileFilter
message is the corresponding French literal; no claim depends on the
message text, so the embedding does not distinguish the two instances. -/
def multerStage (raw : Option UFile) : Option UFile × Option MulterError :=
  match raw with
  | none => (none, none)
  | some f =>
    if fileFilterOk f then
      if f.size > maxFileSize then (none, some MulterError.limitFileSize)
      else (some f, none)
    else
      (none, some (MulterError.filterRejected
        "Only images (jpeg, jpg, png, gif), PDF, DOC, and DOCX files are allowed!"))

/-! ### Cloudinary collaborator contract -/

/-- The fields of a successful `cloudinary.uploader.upload` reply that the
routes read. Per the collaborator contract the reply also echoes the
requested `resource_type`, so the routes read it back from the request. -/
structure UploadReply where
  secure_url : String
  public_id : String
deriving DecidableEq

/-- The two shapes of upload request the two deposit routes issue: a fully
specified `public_id` (server.js:258-263) or a `folder` plus
`resource_type: 'raw'` (routes/classRoutes.js:240-243). -/
inductive UploadRequest where
  | withPublicId (public_id : String) (resource_type : String)
  | withFolder (folder : String) (resource_type : String)
deriving DecidableEq

/-- An effect of a deposit route, in the order performed: the remote
upload, or the persistence write with its success bit. -/
inductive DepositEffect where
  | upload (req : UploadRequest)
  | save (classroomId : String) (ok : Bool)
deriving DecidableEq

/-! ### Class file deposit, server.js variant (server.js:196-314) -/

/-- The response of the server.js deposit route: a redirect carrying
`res.locals.error` with the given message, the catch-all error redirect of
server.js:309-313 (whose message interpolates the thrown error), the
success redirect, or — when the multer middleware rejected the request via
`next(err)` before the handler could run — the response of Express's
default error handler (this route, unlike /api/chat/upload-file, has no
error-handling middleware of its own). -/
inductive DepositOutcome where
  | errorRedirect (msg : String)
  | catchRedirect
  | successRedirect
  | expressError (e : MulterError)
deriving DecidableEq

/-- The resource classification of server.js:244-256: `image` for
`image/*` MIME types, `raw` for PDF/Word MIME types, `auto` otherwise. -/
def docMime (m : String) : Bool :=
  m == "application/pdf" ||
    (strContains m "application/msword" ||
     strContains m "application/vnd.openxmlformats-officedocument.wordprocessingml.document")

def classFileResourceType (m : String) : String :=
  if startsWithStr m "image/" then "image"
  else if docMime m then "raw"
  else "auto"

/-- The `public_id` requested at server.js:244-256: folder, original base
name and a uniqueness timestamp; raw/auto classifications also keep the
lowercased original extension. -/
def classFilePublicId (classId : String) (f : UFile) (now : Nat) : String :=
  if startsWithStr f.mimetype "image/" then
    "class_files/" ++ classId ++ "/" ++ parseName f.originalname ++ "_" ++ toString now
  else
    "class_files/" ++ classId ++ "/" ++ parseName f.originalname ++ "_" ++ toString now
      ++ lowerStr (extname f.originalname)

/-- The extension reconciliation of server.js:275-281: when the upload was
classified `raw` (the reply echoes the requested resource type), the
original name has an extension, and the reply's `secure_url` does not
already end (case-insensitively) with that lowercased extension, the
extension is appended to the locator; otherwise the locator is the
`secure_url` as returned. -/
def reconciledUrl (f : UFile) (reply : UploadReply) : String :=
  if classFileResourceType f.mimetype == "raw"
      && (lowerStr (extname f.originalname) != "")
      && !(strEndsWith (lowerStr reply.secure_url) (lowerStr (extname f.originalname))) then
    reply.secure_url ++ lowerStr (extname f.originalname)
  else reply.secure_url

/-- The `newFile` object built identically by both deposit routes
(server.js:285-294, routes/classRoutes.js:259-268): original name, the
locator, size, declared MIME type, `new Date()`, the session user,
the supplied category and the provider's public id. -/
def mkFileEntry (f : UFile) (url : String) (userId : String) (now : Nat)
    (category : Option String) (pubId : String) : FileEntry :=
  { fileName := f.originalname, filePath := url, fileSize := f.size,
    fileMimeType := f.mimetype, uploadDate := now, uploader := userId,
    category := category.getD "", publicId := pubId }

/-- The tail of the server.js deposit route after a successful upload with
reconciled locator `fileUrl`: build `newFile` (server.js:285-294), then —
only now — `Classroom.findById` (server.js:298-305), push and save. The
returned effect list records that the upload already happened. -/
def serverDepositSave (store : List Classroom) (classId : String) (file : UFile)
    (category : Option String) (userId : String) (now : Nat) (reply : UploadReply)
    (storeUp : Bool) (fileUrl : String) :
    List Classroom × List DepositEffect × DepositOutcome :=
  match findById store classId with
  | none =>
    (store,
     [DepositEffect.upload (UploadRequest.withPublicId
        (classFilePublicId classId file now) (classFileResourceType file.mimetype))],
     DepositOutcome.errorRedirect "Classroom not found.")
  | some c =>
    if storeUp && validClassroom { c with files := c.files ++
        [mkFileEntry file fileUrl userId now category reply.public_id] } then
      (saveClassroom store { c with files := c.files ++
        [mkFileEntry file fileUrl userId now category reply.public_id] },
       [DepositEffect.upload (UploadRequest.withPublicId
          (classFilePublicId classId file now) (classFileResourceType file.mimetype)),
        DepositEffect.save classId true],
       DepositOutcome.successRedirect)
    else
      (store,
       [DepositEffect.upload (UploadRequest.withPublicId
          (classFilePublicId classId file now) (classFileResourceType file.mimetype)),
        DepositEffect.save classId false],
       DepositOutcome.catchRedirect)

/-- The POST /classes/:classId/files handler body of server.js:196-314,
reached only when the multer stage did not reject. In source order: the
missing-file branch (server.js:213-224 — its `req.fileFilterError` /
`req.multerError` message selection consults request fields that stock
multer never sets, so when the handler runs without a file the message is
always the default one; a multer rejection never reaches this branch at
all, see `serverDepositFile`), the `!category` presence check
(server.js:226-229), the Cloudinary upload (server.js:258-263), the
extension reconciliation on `raw` uploads (server.js:275-281), and only
then `Classroom.findById` (server.js:298-305) followed by push and save.
A failed upload or a failed save throws into the catch block. -/
def serverDepositHandler (store : List Classroom) (classId : String)
    (file? : Option UFile) (category : Option String)
    (userId : String) (now : Nat) (uploadOutcome : Option UploadReply)
    (storeUp : Bool) : List Classroom × List DepositEffect × DepositOutcome :=
  match file? with
  | none => (store, [], DepositOutcome.errorRedirect "No file selected.")
  | some file =>
    if jsStr category then
      match uploadOutcome with
      | none =>
        (store,
         [DepositEffect.upload (UploadRequest.withPublicId
            (classFilePublicId classId file now) (classFileResourceType file.mimetype))],
         DepositOutcome.catchRedirect)
      | some reply =>
        serverDepositSave store classId file category userId now reply storeUp
          (reconciledUrl file reply)
    else (store, [], DepositOutcome.errorRedirect "Please select a category for the file.")

/-- The server.js POST /classes/:classId/files route: the multer stage
runs first; a multer rejection goes to `next(err)` and is answered by
Express's default error handler — the route handler never runs, so the
store is untouched and no distinguished message is produced. Otherwise
the handler body runs on `req.file`. -/
def serverDepositFile (store : List Classroom) (classId : String)
    (raw : Option UFile) (category : Option String) (userId : String) (now : Nat)
    (uploadOutcome : Option UploadReply) (storeUp : Bool) :
    List Classroom × List DepositEffect × DepositOutcome :=
  match (multerStage raw).2 with
  | some e => (store, [], DepositOutcome.expressError e)
  | none =>
    serverDepositHandler store classId (multerStage raw).1
      category userId now uploadOutcome storeUp

/-! ### Class file deposit, classRoutes variant (routes/classRoutes.js:194-291) -/

/-- The response of the classRoutes deposit route. Its messages are French
literals; each constructor stands for one of them: `notFound` for the
classroom-missing redirect, `noFile` for the no-file-selected redirect,
`invalidCategory` for the invalid-category redirect
(routes/classRoutes.js:216-220), `uploadNoUrl` for the missing
`secure_url` redirect, `catchError` for the catch block, `success` for the
success redirect; `expressError` is the response of Express error handling
when the multer middleware rejected via `next(err)` before the handler
could run (the MulterError mapping inside this route's catch block is
unreachable for the same reason as in server.js). -/
inductive RouteOutcome where
  | notFound
  | noFile
  | invalidCategory
  | uploadNoUrl
  | catchError
  | success
  | expressError (e : MulterError)
deriving DecidableEq

/-- The POST /classes/:id/files handler of routes/classRoutes.js:194-291
(the route that actually serves this path: classRoutes is mounted at
server.js:106, before server.js declares its own variant at line 196). The
multer middleware runs before the handler; a rejection goes to `next(err)`
and the handler never runs. Otherwise, in source order:
`Classroom.findById` first, then the missing-file check, then the
`allowedCategories` check — all before any upload — then the Cloudinary
upload with `folder` and `resource_type: 'raw'`
(routes/classRoutes.js:240-243), the `secure_url` presence check, and push
and save with the unreconciled `secure_url` as locator (this route has no
extension reconciliation). -/
def classRoutesDepositFile (store : List Classroom) (classId : String)
    (raw : Option UFile) (category : Option String) (userId : String) (now : Nat)
    (uploadOutcome : Option UploadReply) (storeUp : Bool) :
    List Classroom × List DepositEffect × RouteOutcome :=
  match (multerStage raw).2 with
  | some e => (store, [], RouteOutcome.expressError e)
  | none =>
    match findById store classId with
    | none => (store, [], RouteOutcome.notFound)
    | some c =>
    match (multerStage raw).1 with
    | none => (store, [], RouteOutcome.noFile)
    | some file =>
      if !(jsStr category) || !(categoryEnum.contains (category.getD "")) then
        (store, [], RouteOutcome.invalidCategory)
      else
        match uploadOutcome with
        | none =>
          (store,
           [DepositEffect.upload (UploadRequest.withFolder ("class_files/" ++ classId) "raw")],
           RouteOutcome.catchError)
        | some reply =>
          if reply.secure_url == "" then
            (store,
             [DepositEffect.upload (UploadRequest.withFolder ("class_files/" ++ classId) "raw")],
             RouteOutcome.uploadNoUrl)
          else
            if storeUp && validClassroom { c with files := c.files ++
                [mkFileEntry file reply.secure_url userId now category reply.public_id] } then
              (saveClassroom store { c with files := c.files ++
                [mkFileEntry file reply.secure_url userId now category reply.public_id] },
               [DepositEffect.upload (UploadRequest.withFolder ("class_files/" ++ classId) "raw"),
                DepositEffect.save classId true],
               RouteOutcome.success)
            else
              (store,
               [DepositEffect.upload (UploadRequest.withFolder ("class_files/" ++ classId) "raw"),
                DepositEffect.save classId false],
               RouteOutcome.catchError)

/-! ### Helper lemmas -/

theorem str_data_append (s t : String) : (s ++ t).data = s.data ++ t.data := by
  cases s; cases t; rfl

theorem string_eq_empty_of_data_nil {s : String} (h : s.data = []) : s = "" := by
  cases s with
  | mk d =>
    have hd : d = [] := h
    subst hd
    rfl

theorem str_append_ne_empty_left (s t : String) (h : s ≠ "") : s ++ t ≠ "" := by
  intro heq
  apply h
  have hd : s.data ++ t.data = [] := by
    have h2 := congrArg String.data heq
    rw [str_data_append] at h2
    exact h2
  exact string_eq_empty_of_data_nil (List.append_eq_nil.mp hd).1

theorem lowerStr_append (s t : String) : lowerStr (s ++ t) = lowerStr s ++ lowerStr t := by
  cases s with
  | mk a =>
    cases t with
    | mk b =>
      show String.mk (((String.mk a ++ String.mk b).data).map Char.toLower) = _
      rw [str_data_append]
      show String.mk ((a ++ b).map Char.toLower) = String.mk (a.map Char.toLower ++ b.map Char.toLower)
      rw [List.map_append]

theorem startsWithCL_self_append (p r : List Char) : startsWithCL p (p ++ r) = true := by
  induction p with
  | nil => rfl
  | cons a as ih => simp [startsWithCL, ih]

theorem strEndsWith_append (s t : String) : strEndsWith (s ++ t) t = true := by
  unfold strEndsWith
  rw [str_data_append, List.reverse_append]
  exact startsWithCL_self_append _ _

theorem findById_id {store : List Classroom} {cid : String} {c : Classroom}
    (h : findById store cid = some c) : (c.id == cid) = true := by
  have h2 := List.find?_some h
  simpa using h2

theorem findById_saveClassroom (store : List Classroom) (cid : String)
    (c c' : Classroom) (h : findById store cid = some c) (hid : c'.id = c.id) :
    findById (saveClassroom store c') cid = some c' := by
  have hc : (c.id == cid) = true := findById_id h
  induction store with
  | nil => simp [findById] at h
  | cons x xs ih =>
    by_cases hx : (x.id == cid) = true
    · have hxc : x = c := by
        have h3 := h
        unfold findById at h3
        have hx' : (fun (z : Classroom) => z.id == cid) x = true := hx
        have h4 : (x :: xs).find? (fun (z : Classroom) => z.id == cid) = some x :=
          List.find?_cons_of_pos _ hx'
        rw [h4] at h3
        exact Option.some.inj h3
      have hxid : (x.id == c'.id) = true := by
        rw [hid, hxc]
        exact beq_self_eq_true _
      have hcid : ((fun (z : Classroom) => z.id == cid) c') = true := by
        show (c'.id == cid) = true
        rw [hid]
        exact hc
      unfold saveClassroom findById
      simp only [List.map_cons, hxid, if_true]
      exact List.find?_cons_of_pos _ hcid
    · have hrest : findById xs cid = some c := by
        have h3 := h
        unfold findById at h3
        have hx' : ¬ ((fun (z : Classroom) => z.id == cid) x = true) := hx
        have h4 : (x :: xs).find? (fun (z : Classroom) => z.id == cid)
            = xs.find? (fun (z : Classroom) => z.id == cid) :=
          List.find?_cons_of_neg _ hx'
        rw [h4] at h3
        exact h3
      have hxid : (x.id == c'.id) = false := by
        rw [hid]
        apply Bool.eq_false_iff.mpr
        intro hcon
        apply hx
        rw [beq_iff_eq] at hcon
        rw [hcon]
        exact hc
      have hx2 : ¬ ((fun (z : Classroom) => z.id == cid) x = true) := hx
      have h6 : (x :: saveClassroom xs c').find? (fun (z : Classroom) => z.id == cid)
          = (saveClassroom xs c').find? (fun (z : Classroom) => z.id == cid) :=
        List.find?_cons_of_neg _ hx2
      unfold saveClassroom findById
      simp only [List.map_cons]
      rw [if_neg (by simp [hxid])]
      have h7 := ih hrest
      unfold findById saveClassroom at h7
      rw [show (List.find? (fun (z : Classroom) => z.id == cid)
          (x :: List.map (fun c0 => if c0.id == c'.id then c' else c0) xs))
          = (List.map (fun c0 => if c0.id == c'.id then c' else c0) xs).find?
              (fun (z : Classroom) => z.id == cid) from h6]
      exact h7

theorem validClassroom_appendMsg (c : Classroom) (m : Message) :
    validClassroom (appendMsg c m) = true ↔
      (validClassroom c = true ∧ validMessage m = true) := by
  simp [validClassroom, appendMsg, List.all_append, Bool.and_eq_true, List.all_cons]
  tauto

theorem validClassroom_appendFile (c : Classroom) (nf : FileEntry) :
    validClassroom { c with files := c.files ++ [nf] } = true ↔
      (validClassroom c = true ∧ validFileEntry nf = true) := by
  simp [validClassroom, List.all_append, Bool.and_eq_true, List.all_cons]
  tauto

/-- Case analysis of the chatMessage handler: either it drops the event
with no effects (missing sender fields or classroom), or it finds the
classroom and the run is determined by whether `classroom.save()`
succeeds. -/
theorem chatMessageHandler_shape (store : List Classroom) (storeUp : Bool)
    (sid sun : String) (inp : ChatMsgInput) (now : Nat) :
    chatMessageHandler store storeUp sid sun inp now = (store, []) ∨
    (∃ c, findById store inp.classroomId = some c ∧
      (((storeUp && validClassroom (appendMsg c (newMessageDoc sid inp.content inp.type now))) = true ∧
        chatMessageHandler store storeUp sid sun inp now =
          (saveClassroom store (appendMsg c (newMessageDoc sid inp.content inp.type now)),
           [ChatEffect.save inp.classroomId (newMessageDoc sid inp.content inp.type now) true,
            ChatEffect.emitToRoom inp.classroomId (mkEvent sid sun inp now)])) ∨
       ((storeUp && validClassroom (appendMsg c (newMessageDoc sid inp.content inp.type now))) = false ∧
        chatMessageHandler store storeUp sid sun inp now =
          (store, [ChatEffect.save inp.classroomId (newMessageDoc sid inp.content inp.type now) false])))) := by
  unfold chatMessageHandler
  split
  · exact Or.inl rfl
  · split
    · exact Or.inl rfl
    · rename_i c heq
      refine Or.inr ⟨c, heq, ?_⟩
      split
      · rename_i hok
        exact Or.inl ⟨hok, rfl⟩
      · rename_i hok
        exact Or.inr ⟨Bool.eq_false_iff.mpr hok, rfl⟩

/-! ### Claim theorems: the chat pipeline -/

/-- Claim C1: on the chatMessage handler, any broadcast of the message is
preceded in the effect trace by the successful persistence write of that
message (the trace is exactly save-then-emit) and the message is then
appended to the classroom's message sequence in the store; and when the
persistence write fails, the handler leaves the store unchanged and emits
no broadcast at all (the event is dropped). -/
theorem chat_persist_before_broadcast (store : List Classroom) (storeUp : Bool)
    (sid sun : String) (inp : ChatMsgInput) (now : Nat) :
    (∀ room ev, ChatEffect.emitToRoom room ev ∈ (chatMessageHandler store storeUp sid sun inp now).2 →
      room = inp.classroomId ∧ ev = mkEvent sid sun inp now ∧
      (chatMessageHandler store storeUp sid sun inp now).2 =
        [ChatEffect.save inp.classroomId (newMessageDoc sid inp.content inp.type now) true,
         ChatEffect.emitToRoom inp.classroomId (mkEvent sid sun inp now)] ∧
      (∀ c, findById store inp.classroomId = some c →
        findById (chatMessageHandler store storeUp sid sun inp now).1 inp.classroomId
          = some (appendMsg c (newMessageDoc sid inp.content inp.type now)))) ∧
    (∀ m, ChatEffect.save inp.classroomId m false ∈ (chatMessageHandler store storeUp sid sun inp now).2 →
      (chatMessageHandler store storeUp sid sun inp now).1 = store ∧
      ∀ room ev, ChatEffect.emitToRoom room ev ∉ (chatMessageHandler store storeUp sid sun inp now).2) := by
  rcases chatMessageHandler_shape store storeUp sid sun inp now with hdrop | ⟨c, hc, hcase⟩
  · constructor
    · intro room ev hmem
      rw [hdrop] at hmem
      simp at hmem
    · intro m hmem
      rw [hdrop] at hmem
      simp at hmem
  · rcases hcase with ⟨hok, heq⟩ | ⟨hok, heq⟩
    · constructor
      · intro room ev hmem
        rw [heq] at hmem
        simp only [List.mem_cons, List.not_mem_nil, or_false] at hmem
        rcases hmem with h1 | h1
        · exact absurd h1 (by simp)
        · obtain ⟨hroom, hev⟩ := ChatEffect.emitToRoom.inj h1
          refine ⟨hroom, hev, by rw [heq], ?_⟩
          intro c' hc'
          have hcc : c' = c := (Option.some.inj (hc.symm.trans hc')).symm
          subst hcc
          rw [heq]
          exact findById_saveClassroom store inp.classroomId c'
            (appendMsg c' (newMessageDoc sid inp.content inp.type now)) hc rfl
      · intro m hmem
        rw [heq] at hmem
        simp at hmem
    · constructor
      · intro room ev hmem
        rw [heq] at hmem
        simp at hmem
      · intro m hmem
        refine ⟨by rw [heq], ?_⟩
        intro room ev hev
        rw [heq] at hev
        simp at hev

/-- Concrete run backing `chat_persist_before_broadcast`: one classroom,
one text message; the trace is save-then-emit and the message lands in
the stored classroom. -/
theorem chat_persist_before_broadcast_witness :
    (chatMessageHandler [⟨"C1", [], []⟩] true "u1" "alice" ⟨"C1", some "hi", some "text", none⟩ 7).2 =
      [ChatEffect.save "C1" (newMessageDoc "u1" (some "hi") (some "text") 7) true,
       ChatEffect.emitToRoom "C1" (mkEvent "u1" "alice" ⟨"C1", some "hi", some "text", none⟩ 7)] ∧
    findById (chatMessageHandler [⟨"C1", [], []⟩] true "u1" "alice" ⟨"C1", some "hi", some "text", none⟩ 7).1 "C1"
      = some (appendMsg ⟨"C1", [], []⟩ (newMessageDoc "u1" (some "hi") (some "text") 7)) := by
  have h := (chat_persist_before_broadcast [⟨"C1", [], []⟩] true "u1" "alice"
    ⟨"C1", some "hi", some "text", none⟩ 7).1 "C1"
    (mkEvent "u1" "alice" ⟨"C1", some "hi", some "text", none⟩ 7) (by decide)
  exact ⟨h.2.2.1, h.2.2.2 ⟨"C1", [], []⟩ (by decide)⟩

/-- Claim C2: whenever the chatMessage handler broadcasts, the broadcast
goes to the room named by the submission, the event carries the sender id
and username, the content, the (defaulted) type, the attachment URL and
the server-assigned timestamp, and the socket.io fan-out delivers that
event to exactly the connections joined to the room (any joined socket —
the sender's included — receives it; any socket not joined receives
nothing). -/
theorem chat_broadcast_room_delivery (store : List Classroom) (storeUp : Bool)
    (sid sun : String) (inp : ChatMsgInput) (now : Nat) (room : String) (ev : MessageEvent)
    (h : ChatEffect.emitToRoom room ev ∈ (chatMessageHandler store storeUp sid sun inp now).2) :
    room = inp.classroomId ∧
    ev.senderId = sid ∧ ev.senderUsername = sun ∧ ev.content = inp.content ∧
    ev.type = jsOr inp.type "text" ∧ ev.fileUrl = inp.fileUrl ∧ ev.timestamp = now ∧
    (∀ rooms sockId, joinedRoom rooms sockId room = true →
      deliverTo rooms room ev sockId = [ev]) ∧
    (∀ rooms sockId, joinedRoom rooms sockId room = false →
      deliverTo rooms room ev sockId = []) := by
  rcases chatMessageHandler_shape store storeUp sid sun inp now with hdrop | ⟨c, hc, hcase⟩
  · rw [hdrop] at h
    simp at h
  · rcases hcase with ⟨hok, heq⟩ | ⟨hok, heq⟩
    · rw [heq] at h
      simp only [List.mem_cons, List.not_mem_nil, or_false] at h
      rcases h with h1 | h1
      · exact absurd h1 (by simp)
      · obtain ⟨hroom, hev⟩ := ChatEffect.emitToRoom.inj h1
        subst hroom
        subst hev
        refine ⟨rfl, rfl, rfl, rfl, rfl, rfl, rfl, ?_, ?_⟩
        · intro rooms sockId hj
          unfold deliverTo
          rw [hj]
          rfl
        · intro rooms sockId hj
          unfold deliverTo
          rw [hj]
          rfl
    · rw [heq] at h
      simp at h

/-- Concrete run backing `chat_broadcast_room_delivery`: sockets A and B
are joined to room C1, socket X only to C2; the broadcast of a persisted
message reaches B (and A, symmetrically) and not X. -/
theorem chat_broadcast_room_delivery_witness :
    deliverTo [("A", "C1"), ("B", "C1"), ("X", "C2")] "C1"
        (mkEvent "u1" "alice" ⟨"C1", some "hi", some "text", none⟩ 7) "B"
      = [mkEvent "u1" "alice" ⟨"C1", some "hi", some "text", none⟩ 7] ∧
    deliverTo [("A", "C1"), ("B", "C1"), ("X", "C2")] "C1"
        (mkEvent "u1" "alice" ⟨"C1", some "hi", some "text", none⟩ 7) "X"
      = [] := by
  have h := chat_broadcast_room_delivery [⟨"C1", [], []⟩] true "u1" "alice"
    ⟨"C1", some "hi", some "text", none⟩ 7 "C1"
    (mkEvent "u1" "alice" ⟨"C1", some "hi", some "text", none⟩ 7) (by decide)
  exact ⟨h.2.2.2.2.2.2.2.1 [("A", "C1"), ("B", "C1"), ("X", "C2")] "B" (by decide),
         h.2.2.2.2.2.2.2.2 [("A", "C1"), ("B", "C1"), ("X", "C2")] "X" (by decide)⟩

/-- Claim C5: a connection whose handshake resolves no session identity is
disconnected immediately and — because the `return socket.disconnect(true)`
at server.js:356-359 precedes every handler registration — any sequence of
joinRoom/chatMessage events on it is not processed: the store and the room
memberships are unchanged and no effect (in particular no broadcast) is
produced. -/
theorem unauthenticated_connection_dropped (sockId : String) (storeUp : Bool)
    (now : Nat) (st : ServerState) (evs : List ClientEvent) :
    handleConnection none sockId storeUp now st evs = (true, st, []) := rfl

/-- Claim C3, counterexample: a chatMessage of attachment type `image`
with absent attachment URL (and absent content) against an existing
classroom is NOT rejected — the handler persists it and broadcasts it. -/
theorem chat_empty_attachment_url_accepted_cex :
    chatMessageHandler [⟨"C1", [], []⟩] true "u1" "alice" ⟨"C1", none, some "image", none⟩ 0
      = ([⟨"C1", [⟨"u1", none, "image", none, 0⟩], []⟩],
         [ChatEffect.save "C1" ⟨"u1", none, "image", none, 0⟩ true,
          ChatEffect.emitToRoom "C1" ⟨"u1", "alice", none, "image", none, 0⟩]) := by
  decide

/-- Claim C3 (amended): the realtime pipeline performs no attachment-URL
validation. An `image` chatMessage with empty or absent attachment URL is
accepted: appended to the classroom's message sequence and broadcast. A
`file` chatMessage is indeed dropped without persistence or broadcast, but
only because the message schema's type enum excludes `file` — irrespective
of the attachment URL. -/
theorem chat_attachment_url_not_validated (store : List Classroom) (c : Classroom)
    (sid sun cid : String) (ct url : Option String) (now : Nat)
    (hf : findById store cid = some c) (hs : sid ≠ "") (hu : sun ≠ "")
    (hv : validClassroom c = true) :
    chatMessageHandler store true sid sun ⟨cid, ct, some "image", url⟩ now =
      (saveClassroom store (appendMsg c (newMessageDoc sid ct (some "image") now)),
       [ChatEffect.save cid (newMessageDoc sid ct (some "image") now) true,
        ChatEffect.emitToRoom cid (mkEvent sid sun ⟨cid, ct, some "image", url⟩ now)]) ∧
    chatMessageHandler store true sid sun ⟨cid, ct, some "file", url⟩ now =
      (store, [ChatEffect.save cid (newMessageDoc sid ct (some "file") now) false]) := by
  have hsid : (sid == "") = false := beq_eq_false_iff_ne.mpr hs
  have hsun : (sun == "") = false := beq_eq_false_iff_ne.mpr hu
  constructor
  · have hvm : validMessage (newMessageDoc sid ct (some "image") now) = true := by
      simp [validMessage, newMessageDoc, jsOr, messageTypeEnum, hsid, hs]
    have hcv : validClassroom (appendMsg c (newMessageDoc sid ct (some "image") now)) = true :=
      (validClassroom_appendMsg _ _).mpr ⟨hv, hvm⟩
    unfold chatMessageHandler
    rw [if_neg (by simp [hsid, hsun])]
    simp only [hf, hcv, Bool.and_self, if_true]
  · have hvm : validMessage (newMessageDoc sid ct (some "file") now) = false := by
      simp [validMessage, newMessageDoc, jsOr, messageTypeEnum]
    have hcv : validClassroom (appendMsg c (newMessageDoc sid ct (some "file") now)) = false := by
      apply Bool.eq_false_iff.mpr
      intro hcon
      have h2 := ((validClassroom_appendMsg _ _).mp hcon).2
      rw [hvm] at h2
      exact Bool.false_ne_true h2
    unfold chatMessageHandler
    rw [if_neg (by simp [hsid, hsun])]
    simp only [hf, hcv, Bool.and_false, Bool.false_eq_true, if_false]

/-- Concrete run backing `chat_attachment_url_not_validated`. -/
theorem chat_attachment_url_not_validated_witness :
    chatMessageHandler [⟨"C1", [], []⟩] true "u2" "bob" ⟨"C1", some "look", some "image", some ""⟩ 4
      = (saveClassroom [⟨"C1", [], []⟩] (appendMsg ⟨"C1", [], []⟩ (newMessageDoc "u2" (some "look") (some "image") 4)),
         [ChatEffect.save "C1" (newMessageDoc "u2" (some "look") (some "image") 4) true,
          ChatEffect.emitToRoom "C1" (mkEvent "u2" "bob" ⟨"C1", some "look", some "image", some ""⟩ 4)]) ∧
    chatMessageHandler [⟨"C1", [], []⟩] true "u2" "bob" ⟨"C1", some "look", some "file", some ""⟩ 4
      = ([⟨"C1", [], []⟩], [ChatEffect.save "C1" (newMessageDoc "u2" (some "look") (some "file") 4) false]) := by
  exact chat_attachment_url_not_validated [⟨"C1", [], []⟩] ⟨"C1", [], []⟩ "u2" "bob" "C1"
    (some "look") (some "") 4 (by decide) (by decide) (by decide) (by decide)

/-- Claim C4: a chatMessage of type `file` with a non-empty attachment URL
against an existing classroom. The handler accepts it, but
`classroom.save()` fails `messageSchema` validation (its `type` enum is
`['text','math','image']`), so nothing is persisted and nothing is
broadcast — the run evaluates to an unchanged store and a single failed
save effect. -/
theorem chat_file_message_rejected_by_schema :
    chatMessageHandler [⟨"C1", [], []⟩] true "u1" "alice"
        ⟨"C1", some "see attachment", some "file", some "https://cdn.example/notes.pdf"⟩ 3
      = ([⟨"C1", [], []⟩],
         [ChatEffect.save "C1" ⟨"u1", some "see attachment", "file", none, 3⟩ false]) := by
  decide

/-- Claim C9, counterexample: a chatMessage of type `text` with absent
content, and one with empty-string content, against an existing classroom
are NOT rejected — the handler persists and broadcasts both. -/
theorem chat_empty_content_accepted_cex :
    chatMessageHandler [⟨"C1", [], []⟩] true "u1" "alice" ⟨"C1", none, some "text", none⟩ 2
      = ([⟨"C1", [⟨"u1", none, "text", none, 2⟩], []⟩],
         [ChatEffect.save "C1" ⟨"u1", none, "text", none, 2⟩ true,
          ChatEffect.emitToRoom "C1" ⟨"u1", "alice", none, "text", none, 2⟩]) ∧
    chatMessageHandler [⟨"C1", [], []⟩] true "u1" "alice" ⟨"C1", some "", some "text", none⟩ 2
      = ([⟨"C1", [⟨"u1", some "", "text", none, 2⟩], []⟩],
         [ChatEffect.save "C1" ⟨"u1", some "", "text", none, 2⟩ true,
          ChatEffect.emitToRoom "C1" ⟨"u1", "alice", some "", "text", none, 2⟩]) := by
  decide

/-- Claim C9 (amended): content is optional for every message type —
`messageSchema.content` is `required: false` and the realtime handler
performs no content check — so a text or math chatMessage with any
content, empty-string and absent included, is accepted: appended to the
classroom's message sequence and broadcast. -/
theorem chat_empty_content_accepted (store : List Classroom) (c : Classroom)
    (sid sun cid : String) (ct url : Option String) (now : Nat) (tp : String)
    (hf : findById store cid = some c) (hs : sid ≠ "") (hu : sun ≠ "")
    (hv : validClassroom c = true) (htp : tp = "text" ∨ tp = "math") :
    chatMessageHandler store true sid sun ⟨cid, ct, some tp, url⟩ now =
      (saveClassroom store (appendMsg c (newMessageDoc sid ct (some tp) now)),
       [ChatEffect.save cid (newMessageDoc sid ct (some tp) now) true,
        ChatEffect.emitToRoom cid (mkEvent sid sun ⟨cid, ct, some tp, url⟩ now)]) := by
  have hsid : (sid == "") = false := beq_eq_false_iff_ne.mpr hs
  have hsun : (sun == "") = false := beq_eq_false_iff_ne.mpr hu
  have hvm : validMessage (newMessageDoc sid ct (some tp) now) = true := by
    rcases htp with h | h <;> subst h <;>
      simp [validMessage, newMessageDoc, jsOr, messageTypeEnum, hsid, hs]
  have hcv : validClassroom (appendMsg c (newMessageDoc sid ct (some tp) now)) = true :=
    (validClassroom_appendMsg _ _).mpr ⟨hv, hvm⟩
  unfold chatMessageHandler
  rw [if_neg (by simp [hsid, hsun])]
  simp only [hf, hcv, Bool.and_self, if_true]

/-- Concrete runs backing `chat_empty_content_accepted`: once with
empty-string content and once with absent content. -/
theorem chat_empty_content_accepted_witness :
    chatMessageHandler [⟨"C1", [], []⟩] true "u1" "alice" ⟨"C1", some "", some "text", none⟩ 5
      = (saveClassroom [⟨"C1", [], []⟩] (appendMsg ⟨"C1", [], []⟩ (newMessageDoc "u1" (some "") (some "text") 5)),
         [ChatEffect.save "C1" (newMessageDoc "u1" (some "") (some "text") 5) true,
          ChatEffect.emitToRoom "C1" (mkEvent "u1" "alice" ⟨"C1", some "", some "text", none⟩ 5)]) ∧
    chatMessageHandler [⟨"C1", [], []⟩] true "u1" "alice" ⟨"C1", none, some "math", none⟩ 5
      = (saveClassroom [⟨"C1", [], []⟩] (appendMsg ⟨"C1", [], []⟩ (newMessageDoc "u1" none (some "math") 5)),
         [ChatEffect.save "C1" (newMessageDoc "u1" none (some "math") 5) true,
          ChatEffect.emitToRoom "C1" (mkEvent "u1" "alice" ⟨"C1", none, some "math", none⟩ 5)]) := by
  exact ⟨chat_empty_content_accepted [⟨"C1", [], []⟩] ⟨"C1", [], []⟩ "u1" "alice" "C1"
      (some "") none 5 "text" (by decide) (by decide) (by decide) (by decide) (Or.inl rfl),
    chat_empty_content_accepted [⟨"C1", [], []⟩] ⟨"C1", [], []⟩ "u1" "alice" "C1"
      none none 5 "math" (by decide) (by decide) (by decide) (by decide) (Or.inr rfl)⟩

/-! ### Claim theorems: the file deposit pipelines -/

/-- Claim C6: on the deposit route that serves /classes/:id/files
(routes/classRoutes.js:194-291), a deposit whose category fails the
`allowedCategories` guard — absent, empty, or not in
{exercise, homework, correction, general} — is rejected with the
invalid-category error, performs no upload effect at all, and leaves the
store (hence the classroom's file sequence) unchanged. -/
theorem deposit_invalid_category_rejected (store : List Classroom) (classId : String)
    (f : UFile) (category : Option String) (userId : String) (now : Nat)
    (upl : Option UploadReply) (storeUp : Bool) (c : Classroom)
    (hc : findById store classId = some c)
    (hm : multerStage (some f) = (some f, none))
    (hcat : (!(jsStr category) || !(categoryEnum.contains (category.getD ""))) = true) :
    classRoutesDepositFile store classId (some f) category userId now upl storeUp
      = (store, [], RouteOutcome.invalidCategory) := by
  unfold classRoutesDepositFile
  simp only [hc, hm, hcat, if_true]

/-- Concrete run backing `deposit_invalid_category_rejected`: category
"essay" with a valid 2 MiB PDF. -/
theorem deposit_invalid_category_rejected_witness :
    classRoutesDepositFile [⟨"C1", [], []⟩] "C1"
        (some ⟨"notes.pdf", "application/pdf", 2097152⟩) (some "essay") "t1" 9
        (some ⟨"https://res.example/x", "pid"⟩) true
      = ([⟨"C1", [], []⟩], [], RouteOutcome.invalidCategory) := by
  exact deposit_invalid_category_rejected [⟨"C1", [], []⟩] "C1"
    ⟨"notes.pdf", "application/pdf", 2097152⟩ (some "essay") "t1" 9
    (some ⟨"https://res.example/x", "pid"⟩) true ⟨"C1", [], []⟩
    (by decide) (by decide) (by decide)

/-- Claim C7, counterexample: a 15 MiB PDF deposit is rejected by the
multer stage, but the rejection is passed to `next(err)` and answered by
Express's default error handler — the route handler never runs (this
route has no error middleware, and multer never sets `req.multerError`),
so the distinguished file-too-large redirect message of server.js:213-224
is never produced. -/
theorem deposit_size_limit_message_cex :
    serverDepositFile [⟨"C1", [], []⟩] "C1" (some ⟨"big.pdf", "application/pdf", 15728640⟩)
        (some "homework") "t1" 9 none true
      = ([⟨"C1", [], []⟩], [], DepositOutcome.expressError MulterError.limitFileSize) ∧
    DepositOutcome.expressError MulterError.limitFileSize
      ≠ DepositOutcome.errorRedirect "File is too large! Max 10MB allowed." := by
  decide

/-- Claim C7 (amended): a payload over the 10 MiB multer limit or with a
MIME type/extension failing the fileFilter is rejected by the multer
stage before the handler can run, on the shadowed server.js route and on
the live classRoutes route alike: the store is unchanged and no effect (in
particular no upload) is performed. But the rejection reaches the client
as Express's default error response — multer passes the error to
`next(err)`, skipping the handler, and never sets `req.multerError`, so
the distinguished file-too-large mapping at server.js:213-224 is dead code
and a pure size violation surfaces only as the LIMIT_FILE_SIZE error. -/
theorem deposit_size_type_guard (store : List Classroom) (classId : String) (f : UFile)
    (category : Option String) (userId : String) (now : Nat)
    (upl : Option UploadReply) (storeUp : Bool)
    (h : (decide (f.size > maxFileSize) || !(fileFilterOk f)) = true) :
    (∃ e, serverDepositFile store classId (some f) category userId now upl storeUp
        = (store, [], DepositOutcome.expressError e)) ∧
    (∃ e, classRoutesDepositFile store classId (some f) category userId now upl storeUp
        = (store, [], RouteOutcome.expressError e)) ∧
    (fileFilterOk f = true →
      serverDepositFile store classId (some f) category userId now upl storeUp
        = (store, [], DepositOutcome.expressError MulterError.limitFileSize) ∧
      classRoutesDepositFile store classId (some f) category userId now upl storeUp
        = (store, [], RouteOutcome.expressError MulterError.limitFileSize)) := by
  by_cases hff : fileFilterOk f = true
  · have hsz : f.size > maxFileSize := by
      rcases Bool.or_eq_true_iff.mp h with h1 | h1
      · exact of_decide_eq_true h1
      · rw [hff] at h1
        simp at h1
    have hm : multerStage (some f) = (none, some MulterError.limitFileSize) := by
      simp only [multerStage]
      rw [if_pos hff, if_pos hsz]
    have hs1 : serverDepositFile store classId (some f) category userId now upl storeUp
        = (store, [], DepositOutcome.expressError MulterError.limitFileSize) := by
      unfold serverDepositFile
      rw [hm]
    have hs2 : classRoutesDepositFile store classId (some f) category userId now upl storeUp
        = (store, [], RouteOutcome.expressError MulterError.limitFileSize) := by
      unfold classRoutesDepositFile
      rw [hm]
    exact ⟨⟨_, hs1⟩, ⟨_, hs2⟩, fun _ => ⟨hs1, hs2⟩⟩
  · have hff' : fileFilterOk f = false := Bool.eq_false_iff.mpr hff
    have hm : multerStage (some f) = (none, some (MulterError.filterRejected
        "Only images (jpeg, jpg, png, gif), PDF, DOC, and DOCX files are allowed!")) := by
      simp only [multerStage]
      rw [if_neg (by simp [hff'])]
    have hs1 : serverDepositFile store classId (some f) category userId now upl storeUp
        = (store, [], DepositOutcome.expressError (MulterError.filterRejected
            "Only images (jpeg, jpg, png, gif), PDF, DOC, and DOCX files are allowed!")) := by
      unfold serverDepositFile
      rw [hm]
    have hs2 : classRoutesDepositFile store classId (some f) category userId now upl storeUp
        = (store, [], RouteOutcome.expressError (MulterError.filterRejected
            "Only images (jpeg, jpg, png, gif), PDF, DOC, and DOCX files are allowed!")) := by
      unfold classRoutesDepositFile
      rw [hm]
    exact ⟨⟨_, hs1⟩, ⟨_, hs2⟩, fun hcon => absurd hcon hff⟩

/-- Concrete run backing `deposit_size_type_guard`: a 15 MiB PDF against
both route variants. -/
theorem deposit_size_type_guard_witness :
    serverDepositFile [⟨"C1", [], []⟩] "C1" (some ⟨"big.pdf", "application/pdf", 15728640⟩)
        (some "homework") "t1" 9 none true
      = ([⟨"C1", [], []⟩], [], DepositOutcome.expressError MulterError.limitFileSize) ∧
    classRoutesDepositFile [⟨"C1", [], []⟩] "C1" (some ⟨"big.pdf", "application/pdf", 15728640⟩)
        (some "homework") "t1" 9 none true
      = ([⟨"C1", [], []⟩], [], RouteOutcome.expressError MulterError.limitFileSize) := by
  have h := deposit_size_type_guard [⟨"C1", [], []⟩] "C1"
    ⟨"big.pdf", "application/pdf", 15728640⟩ (some "homework") "t1" 9 none true (by decide)
  exact h.2.2 (by decide)

theorem serverDepositSave_notFound (store : List Classroom) (classId : String)
    (f : UFile) (category : Option String) (userId : String) (now : Nat)
    (reply : UploadReply) (storeUp : Bool) (url : String)
    (hfind : findById store classId = none) :
    serverDepositSave store classId f category userId now reply storeUp url
      = (store,
         [DepositEffect.upload (UploadRequest.withPublicId
            (classFilePublicId classId f now) (classFileResourceType f.mimetype))],
         DepositOutcome.errorRedirect "Classroom not found.") := by
  unfold serverDepositSave
  rw [hfind]

/-- Claim C10: in the server.js class-file deposit handler the classroom
existence check comes only after the remote upload: for a deposit naming a
nonexistent classroom id with a valid file and category, the upload effect
is performed and afterwards no FileEntry is appended anywhere — the run
ends in the classroom-not-found error with the store unchanged. -/
theorem deposit_missing_classroom_after_upload (store : List Classroom) (classId : String)
    (f : UFile) (category : Option String) (userId : String) (now : Nat)
    (reply : UploadReply) (storeUp : Bool)
    (hm : multerStage (some f) = (some f, none))
    (hcat : jsStr category = true)
    (hfind : findById store classId = none) :
    serverDepositFile store classId (some f) category userId now (some reply) storeUp
      = (store,
         [DepositEffect.upload (UploadRequest.withPublicId
            (classFilePublicId classId f now) (classFileResourceType f.mimetype))],
         DepositOutcome.errorRedirect "Classroom not found.") := by
  unfold serverDepositFile
  rw [hm]
  show serverDepositHandler store classId (some f) category userId now (some reply) storeUp = _
  simp only [serverDepositHandler]
  rw [if_pos hcat]
  exact serverDepositSave_notFound store classId f category userId now reply storeUp _ hfind

/-- Concrete run backing `deposit_missing_classroom_after_upload`. -/
theorem deposit_missing_classroom_after_upload_witness :
    serverDepositFile [⟨"C1", [], []⟩] "GHOST"
        (some ⟨"notes.pdf", "application/pdf", 2097152⟩) (some "homework") "t1" 9
        (some ⟨"https://res.example/raw/upload/abc", "abc"⟩) true
      = ([⟨"C1", [], []⟩],
         [DepositEffect.upload (UploadRequest.withPublicId
            (classFilePublicId "GHOST" ⟨"notes.pdf", "application/pdf", 2097152⟩ 9)
            (classFileResourceType "application/pdf"))],
         DepositOutcome.errorRedirect "Classroom not found.") := by
  exact deposit_missing_classroom_after_upload [⟨"C1", [], []⟩] "GHOST"
    ⟨"notes.pdf", "application/pdf", 2097152⟩ (some "homework") "t1" 9
    ⟨"https://res.example/raw/upload/abc", "abc"⟩ true
    (by decide) (by decide) (by decide)

/-- Claim C8: the extension reconciliation the claim describes exists only
in the shadowed server.js variant of the route (server.js:275-281 — dead
code, since classRoutes is mounted at server.js:106 and serves
POST /classes/:id/files). On the live classRoutes route, a successful
2 MiB notes.pdf deposit with category homework appends a FileEntry whose
`fileMimeType` and `category` are as claimed, but whose locator is the
provider's `secure_url` exactly as returned — here one without an
extension — so the stored locator does not end in ".pdf". -/
theorem deposit_locator_extension_not_reconciled :
    classRoutesDepositFile [⟨"C1", [], []⟩] "C1"
        (some ⟨"notes.pdf", "application/pdf", 2097152⟩) (some "homework") "t1" 9
        (some ⟨"https://res.example/raw/upload/abc123", "abc123"⟩) true
      = ([⟨"C1", [],
           [⟨"notes.pdf", "https://res.example/raw/upload/abc123", 2097152,
             "application/pdf", 9, "t1", "homework", "abc123"⟩]⟩],
         [DepositEffect.upload (UploadRequest.withFolder "class_files/C1" "raw"),
          DepositEffect.save "C1" true],
         RouteOutcome.success) ∧
    strEndsWith (lowerStr "https://res.example/raw/upload/abc123") (extname "notes.pdf")
      = false := by
  decide

end MathLearning
